import Mathlib

/-!
Verification of the `resultish` Rust library (src/lib.rs): a tri-state
outcome type `Resultish<T, E>` with variants `Ok(T)`, `Err(E)`, `Both(T, E)`,
its resolution policies into the binary `Result<T, E>`, accessors, mapping
operations, the `From<Result<T, E>>` construction, and the derived total
ordering. Each definition below is a shallow embedding of the corresponding
Rust item.
-/

/-- Shallow embedding of Rust's binary `Result<T, E>` type. -/
inductive RustResult (T E : Type) where
  | Ok : T → RustResult T E
  | Err : E → RustResult T E
  deriving DecidableEq, Repr

namespace RustResult

/-- Rust `Result::ok`: converts to `Option<T>`, discarding the error, if any. -/
def ok : RustResult T E → Option T
  | .Ok t => some t
  | .Err _ => none

/-- Rust `Result::err`: converts to `Option<E>`, discarding the success value, if any. -/
def err : RustResult T E → Option E
  | .Ok _ => none
  | .Err e => some e

end RustResult

/-- Embedding of `enum Resultish<T, E>` (src/lib.rs lines 11-20): success
(`Ok`), error (`Err`), or `Both`. Variants are listed in the Rust declaration
order `Ok, Err, Both`, which the derived `Ord` instance depends on. -/
inductive Resultish (T E : Type) where
  | Ok : T → Resultish T E
  | Err : E → Resultish T E
  | Both : T → E → Resultish T E
  deriving DecidableEq, Repr

namespace Resultish

/-- `Resultish::has_ok` (src/lib.rs lines 57-59): `matches!(self, Ok(_) | Both(_, _))`. -/
def has_ok : Resultish T E → Bool
  | .Ok _ => true
  | .Err _ => false
  | .Both _ _ => true

/-- `Resultish::has_err` (src/lib.rs lines 77-79): `matches!(self, Err(_) | Both(_, _))`. -/
def has_err : Resultish T E → Bool
  | .Ok _ => false
  | .Err _ => true
  | .Both _ _ => true

/-- `Resultish::lenient` (src/lib.rs lines 98-104): convert to `Result`
leniently; `Both` maps to `Result::Ok`, discarding the error value. -/
def lenient : Resultish T E → RustResult T E
  | .Ok t => .Ok t
  | .Err e => .Err e
  | .Both t _ => .Ok t

/-- `Resultish::lenient_err` (src/lib.rs lines 107-113). -/
def lenient_err : Resultish T E → Option E
  | .Ok _ => none
  | .Err e => some e
  | .Both _ _ => none

/-- `Resultish::lenient_ok` (src/lib.rs lines 116-122). -/
def lenient_ok : Resultish T E → Option T
  | .Ok t => some t
  | .Err _ => none
  | .Both t _ => some t

/-- `Resultish::map` (src/lib.rs lines 126-135): apply a function to the
success value, leaving the error value untouched. -/
def map (op : T → U) : Resultish T E → Resultish U E
  | .Ok t => .Ok (op t)
  | .Err e => .Err e
  | .Both t e => .Both (op t) e

/-- `Resultish::map_err` (src/lib.rs lines 139-148): apply a function to the
error value, leaving the success value untouched. -/
def map_err (op : E → F) : Resultish T E → Resultish T F
  | .Ok t => .Ok t
  | .Err e => .Err (op e)
  | .Both t e => .Both t (op e)

/-- `Resultish::strict` (src/lib.rs lines 167-173): convert to `Result`
strictly; `Both` maps to `Result::Err`, discarding the success value. -/
def strict : Resultish T E → RustResult T E
  | .Ok t => .Ok t
  | .Err e => .Err e
  | .Both _ e => .Err e

/-- `Resultish::strict_err` (src/lib.rs lines 176-182). -/
def strict_err : Resultish T E → Option E
  | .Ok _ => none
  | .Err e => some e
  | .Both _ e => some e

/-- `Resultish::strict_ok` (src/lib.rs lines 185-191). -/
def strict_ok : Resultish T E → Option T
  | .Ok t => some t
  | .Err _ => none
  | .Both _ _ => none

/-- `Resultish::tuple` (src/lib.rs lines 209-215): convert to a tuple of the
success and error values. -/
def tuple : Resultish T E → Option T × Option E
  | .Ok t => (some t, none)
  | .Err e => (none, some e)
  | .Both t e => (some t, some e)

/-- `impl From<Result<T, E>> for Resultish<T, E>` (src/lib.rs lines 219-226). -/
def fromResult : RustResult T E → Resultish T E
  | .Ok t => .Ok t
  | .Err e => .Err e

/-- The comparison function produced by Rust's `#[derive(PartialOrd, Ord)]`
on `Resultish` (src/lib.rs line 11): variants compare by declaration order
`Ok < Err < Both`, and payloads compare lexicographically within a variant,
given comparison functions for `T` and `E`. -/
def cmp (cmpT : T → T → Ordering) (cmpE : E → E → Ordering) :
    Resultish T E → Resultish T E → Ordering
  | .Ok a, .Ok b => cmpT a b
  | .Ok _, .Err _ => .lt
  | .Ok _, .Both _ _ => .lt
  | .Err _, .Ok _ => .gt
  | .Err a, .Err b => cmpE a b
  | .Err _, .Both _ _ => .lt
  | .Both _ _, .Ok _ => .gt
  | .Both _ _, .Err _ => .gt
  | .Both a e, .Both b f => (cmpT a b).then (cmpE e f)

end Resultish

/-- Standard comparison on `Nat`, used to instantiate `Resultish.cmp` at
concrete inputs. -/
def natCmp : Nat → Nat → Ordering := compare

/-- C1: for every outcome, `lenient` maps `Ok t` to `Result::Ok t`, `Err e` to
`Result::Err e`, and `Both t e` to `Result::Ok t`, discarding the error value. -/
theorem C1_lenient_resolution (T E : Type) :
    ∀ (t : T) (e : E),
      Resultish.lenient (Resultish.Ok (E := E) t) = RustResult.Ok t ∧
      Resultish.lenient (Resultish.Err (T := T) e) = RustResult.Err e ∧
      Resultish.lenient (Resultish.Both t e) = RustResult.Ok t := by
  intro t e
  exact ⟨rfl, rfl, rfl⟩

/-- C1 witness at concrete inputs. -/
theorem C1_lenient_resolution_witness :
    Resultish.lenient (Resultish.Ok (E := Nat) 3) = RustResult.Ok 3 ∧
    Resultish.lenient (Resultish.Err (T := Nat) 7) = RustResult.Err 7 ∧
    Resultish.lenient (Resultish.Both 3 7) = RustResult.Ok 3 :=
  C1_lenient_resolution Nat Nat 3 7

/-- C2: `strict` maps `Ok t` to `Result::Ok t`, `Err e` to `Result::Err e`,
and `Both t e` to `Result::Err e`, discarding the success value; the two
resolution policies agree on `Ok` and `Err` and disagree on `Both`. -/
theorem C2_strict_resolution (T E : Type) :
    ∀ (t : T) (e : E),
      Resultish.strict (Resultish.Ok (E := E) t) = RustResult.Ok t ∧
      Resultish.strict (Resultish.Err (T := T) e) = RustResult.Err e ∧
      Resultish.strict (Resultish.Both t e) = RustResult.Err e ∧
      Resultish.lenient (Resultish.Ok (E := E) t) =
        Resultish.strict (Resultish.Ok (E := E) t) ∧
      Resultish.lenient (Resultish.Err (T := T) e) =
        Resultish.strict (Resultish.Err (T := T) e) ∧
      Resultish.lenient (Resultish.Both t e) ≠
        Resultish.strict (Resultish.Both t e) := by
  intro t e
  refine ⟨rfl, rfl, rfl, rfl, rfl, ?_⟩
  intro h
  exact RustResult.noConfusion h

/-- C2 witness at concrete inputs. -/
theorem C2_strict_resolution_witness :
    Resultish.strict (Resultish.Ok (E := Nat) 3) = RustResult.Ok 3 ∧
    Resultish.strict (Resultish.Err (T := Nat) 7) = RustResult.Err 7 ∧
    Resultish.strict (Resultish.Both 3 7) = RustResult.Err 7 ∧
    Resultish.lenient (Resultish.Ok (E := Nat) 3) =
      Resultish.strict (Resultish.Ok (E := Nat) 3) ∧
    Resultish.lenient (Resultish.Err (T := Nat) 7) =
      Resultish.strict (Resultish.Err (T := Nat) 7) ∧
    Resultish.lenient (Resultish.Both 3 7) ≠
      Resultish.strict (Resultish.Both 3 7) :=
  C2_strict_resolution Nat Nat 3 7

/-- C3 counterexample: the claim says every `Both` (Partial) value compares
less than every `Err` (Failure) value, but the derived ordering follows the
declaration order `Ok, Err, Both`, so `Both 0 0` compares greater than
`Err 0`, not less. -/
theorem C3_counterexample :
    ¬ (Resultish.cmp natCmp natCmp
        (Resultish.Both 0 0) (Resultish.Err 0) = Ordering.lt) := by
  decide

/-- C3 amended: equality is structural on each variant, and the derived total
ordering is consistent with the variant declaration order
`Success < Failure < Partial` (Rust: `Ok < Err < Both`): every `Ok` value
compares less than every `Err` or `Both` value, every `Err` value compares
less than every `Both` value, and within a single variant the payload
comparison (lexicographic for `Both`) decides the order. -/
theorem C3_order_and_equality (T E : Type)
    (cmpT : T → T → Ordering) (cmpE : E → E → Ordering) :
    ∀ (t t2 : T) (e e2 : E),
      ((Resultish.Ok (E := E) t = Resultish.Ok t2) ↔ t = t2) ∧
      ((Resultish.Err (T := T) e = Resultish.Err e2) ↔ e = e2) ∧
      ((Resultish.Both t e = Resultish.Both t2 e2) ↔ t = t2 ∧ e = e2) ∧
      Resultish.cmp cmpT cmpE (.Ok t) (.Err e) = .lt ∧
      Resultish.cmp cmpT cmpE (.Ok t) (.Both t2 e) = .lt ∧
      Resultish.cmp cmpT cmpE (.Err e) (.Both t e2) = .lt ∧
      Resultish.cmp cmpT cmpE (.Err e) (.Ok t) = .gt ∧
      Resultish.cmp cmpT cmpE (.Both t e) (.Ok t2) = .gt ∧
      Resultish.cmp cmpT cmpE (.Both t e) (.Err e2) = .gt ∧
      Resultish.cmp cmpT cmpE (.Ok t) (.Ok t2) = cmpT t t2 ∧
      Resultish.cmp cmpT cmpE (.Err e) (.Err e2) = cmpE e e2 ∧
      Resultish.cmp cmpT cmpE (.Both t e) (.Both t2 e2) =
        (cmpT t t2).then (cmpE e e2) := by
  intro t t2 e e2
  refine ⟨?_, ?_, ?_, rfl, rfl, rfl, rfl, rfl, rfl, rfl, rfl, rfl⟩
  · exact ⟨fun h => by injection h, fun h => by rw [h]⟩
  · exact ⟨fun h => by injection h, fun h => by rw [h]⟩
  · exact ⟨fun h => by injection h with h1 h2; exact ⟨h1, h2⟩,
      fun h => by rw [h.1, h.2]⟩

/-- C3 amended witness at concrete inputs. -/
theorem C3_order_and_equality_witness :
    ((Resultish.Ok (E := Nat) 1 = Resultish.Ok 2) ↔ (1 : Nat) = 2) ∧
    ((Resultish.Err (T := Nat) 3 = Resultish.Err 4) ↔ (3 : Nat) = 4) ∧
    ((Resultish.Both 1 3 = Resultish.Both 2 4) ↔ (1 : Nat) = 2 ∧ (3 : Nat) = 4) ∧
    Resultish.cmp natCmp natCmp (.Ok 1) (.Err 3) = .lt ∧
    Resultish.cmp natCmp natCmp (.Ok 1) (.Both 2 3) = .lt ∧
    Resultish.cmp natCmp natCmp (.Err 3) (.Both 1 4) = .lt ∧
    Resultish.cmp natCmp natCmp (.Err 3) (.Ok 1) = .gt ∧
    Resultish.cmp natCmp natCmp (.Both 1 3) (.Ok 2) = .gt ∧
    Resultish.cmp natCmp natCmp (.Both 1 3) (.Err 4) = .gt ∧
    Resultish.cmp natCmp natCmp (.Ok 1) (.Ok 2) = natCmp 1 2 ∧
    Resultish.cmp natCmp natCmp (.Err 3) (.Err 4) = natCmp 3 4 ∧
    Resultish.cmp natCmp natCmp (.Both 1 3) (.Both 2 4) =
      (natCmp 1 2).then (natCmp 3 4) :=
  C3_order_and_equality Nat Nat natCmp natCmp 1 2 3 4

/-- C4: constructing an outcome from a binary `Result::Ok t` and resolving
with either policy yields `Result::Ok t`; constructing from `Result::Err e`
and resolving with either policy yields `Result::Err e`. -/
theorem C4_roundtrip_from_binary (T E : Type) :
    ∀ (t : T) (e : E),
      (Resultish.fromResult (RustResult.Ok (E := E) t)).lenient =
        RustResult.Ok t ∧
      (Resultish.fromResult (RustResult.Ok (E := E) t)).strict =
        RustResult.Ok t ∧
      (Resultish.fromResult (RustResult.Err (T := T) e)).lenient =
        RustResult.Err e ∧
      (Resultish.fromResult (RustResult.Err (T := T) e)).strict =
        RustResult.Err e := by
  intro t e
  exact ⟨rfl, rfl, rfl, rfl⟩

/-- C4 witness at concrete inputs. -/
theorem C4_roundtrip_from_binary_witness :
    (Resultish.fromResult (RustResult.Ok (E := Nat) 3)).lenient =
      RustResult.Ok 3 ∧
    (Resultish.fromResult (RustResult.Ok (E := Nat) 3)).strict =
      RustResult.Ok 3 ∧
    (Resultish.fromResult (RustResult.Err (T := Nat) 7)).lenient =
      RustResult.Err 7 ∧
    (Resultish.fromResult (RustResult.Err (T := Nat) 7)).strict =
      RustResult.Err 7 :=
  C4_roundtrip_from_binary Nat Nat 3 7

/-- C5: `tuple` is a lossless decomposition: `Ok t` yields `(some t, none)`,
`Err e` yields `(none, some e)`, and `Both t e` yields `(some t, some e)`. -/
theorem C5_tuple_decomposition (T E : Type) :
    ∀ (t : T) (e : E),
      Resultish.tuple (Resultish.Ok (E := E) t) = (some t, none) ∧
      Resultish.tuple (Resultish.Err (T := T) e) = (none, some e) ∧
      Resultish.tuple (Resultish.Both t e) = (some t, some e) := by
  intro t e
  exact ⟨rfl, rfl, rfl⟩

/-- C5 witness at concrete inputs. -/
theorem C5_tuple_decomposition_witness :
    Resultish.tuple (Resultish.Ok (E := Nat) 3) = (some 3, none) ∧
    Resultish.tuple (Resultish.Err (T := Nat) 7) = (none, some 7) ∧
    Resultish.tuple (Resultish.Both 3 7) = (some 3, some 7) :=
  C5_tuple_decomposition Nat Nat 3 7

/-- C6: each Option-returning accessor equals the corresponding resolution
composed with the binary projections `ok`/`err`; in particular `lenient_err`
is `none` on both `Ok` and `Both`, and `strict_ok` is `some` only on `Ok`,
`none` on `Both`. -/
theorem C6_accessors_are_projections (T E : Type) :
    (∀ x : Resultish T E,
      x.lenient_ok = x.lenient.ok ∧ x.lenient_err = x.lenient.err ∧
      x.strict_ok = x.strict.ok ∧ x.strict_err = x.strict.err) ∧
    (∀ (t : T) (e : E),
      (Resultish.Ok (E := E) t).lenient_err = none ∧
      (Resultish.Both t e).lenient_err = none ∧
      (Resultish.Ok (E := E) t).strict_ok = some t ∧
      (Resultish.Both t e).strict_ok = none ∧
      (Resultish.Err (T := T) e).strict_ok = none) := by
  constructor
  · intro x
    cases x <;> exact ⟨rfl, rfl, rfl, rfl⟩
  · intro t e
    exact ⟨rfl, rfl, rfl, rfl, rfl⟩

/-- C7: functor laws for `map`: mapping with the identity function returns a
value structurally equal to the input for all three variants, and mapping
with `f` then `g` equals mapping once with the composition of `g` after `f`. -/
theorem C7_map_functor_laws (T U V E : Type) :
    (∀ x : Resultish T E, x.map id = x) ∧
    (∀ (f : T → U) (g : U → V) (x : Resultish T E),
      (x.map f).map g = x.map (g ∘ f)) := by
  constructor
  · intro x
    cases x <;> rfl
  · intro f g x
    cases x <;> rfl

/-- C8: `map_err` applies the function to the error payload if present,
leaves the success payload untouched, and preserves the variant shape. -/
theorem C8_map_err_shape (T E F : Type) :
    ∀ (op : E → F) (t : T) (e : E),
      Resultish.map_err op (Resultish.Ok (E := E) t) = Resultish.Ok t ∧
      Resultish.map_err op (Resultish.Err (T := T) e) = Resultish.Err (op e) ∧
      Resultish.map_err op (Resultish.Both t e) = Resultish.Both t (op e) := by
  intro op t e
  exact ⟨rfl, rfl, rfl⟩

/-- C8 witness at concrete inputs. -/
theorem C8_map_err_shape_witness :
    Resultish.map_err Nat.succ (Resultish.Ok (E := Nat) 3) = Resultish.Ok 3 ∧
    Resultish.map_err Nat.succ (Resultish.Err (T := Nat) 7) =
      Resultish.Err (Nat.succ 7) ∧
    Resultish.map_err Nat.succ (Resultish.Both 3 7) =
      Resultish.Both 3 (Nat.succ 7) :=
  C8_map_err_shape Nat Nat Nat Nat.succ 3 7

/-- C9: `has_ok` is true exactly on the `Ok` and `Both` variants, and
`has_err` is true exactly on the `Err` and `Both` variants; in particular
both are true on `Both`, `has_err` is false on `Ok`, and `has_ok` is false
on `Err`. -/
theorem C9_presence_checks (T E : Type) :
    ∀ (t : T) (e : E),
      Resultish.has_ok (Resultish.Ok (E := E) t) = true ∧
      Resultish.has_ok (Resultish.Err (T := T) e) = false ∧
      Resultish.has_ok (Resultish.Both t e) = true ∧
      Resultish.has_err (Resultish.Ok (E := E) t) = false ∧
      Resultish.has_err (Resultish.Err (T := T) e) = true ∧
      Resultish.has_err (Resultish.Both t e) = true := by
  intro t e
  exact ⟨rfl, rfl, rfl, rfl, rfl, rfl⟩

/-- C9 witness at concrete inputs. -/
theorem C9_presence_checks_witness :
    Resultish.has_ok (Resultish.Ok (E := Nat) 3) = true ∧
    Resultish.has_ok (Resultish.Err (T := Nat) 7) = false ∧
    Resultish.has_ok (Resultish.Both 3 7) = true ∧
    Resultish.has_err (Resultish.Ok (E := Nat) 3) = false ∧
    Resultish.has_err (Resultish.Err (T := Nat) 7) = true ∧
    Resultish.has_err (Resultish.Both 3 7) = true :=
  C9_presence_checks Nat Nat 3 7

/-- C10: conversion to the binary result and back is lossy exactly on `Both`:
`fromResult` never produces a `Both`; round-tripping `Both t e` through
`lenient` yields `Ok t` and through `strict` yields `Err e`; and on `Ok` and
`Err` inputs the round trip through either resolution is the identity. -/
theorem C10_roundtrip_lossy_on_both (T E : Type) :
    (∀ (r : RustResult T E) (t : T) (e : E),
      Resultish.fromResult r ≠ Resultish.Both t e) ∧
    (∀ (t : T) (e : E),
      Resultish.fromResult (Resultish.Both t e).lenient = Resultish.Ok t ∧
      Resultish.fromResult (Resultish.Both t e).strict = Resultish.Err e ∧
      Resultish.fromResult (Resultish.Ok (E := E) t).lenient =
        Resultish.Ok t ∧
      Resultish.fromResult (Resultish.Ok (E := E) t).strict =
        Resultish.Ok t ∧
      Resultish.fromResult (Resultish.Err (T := T) e).lenient =
        Resultish.Err e ∧
      Resultish.fromResult (Resultish.Err (T := T) e).strict =
        Resultish.Err e) := by
  constructor
  · intro r t e h
    cases r <;> exact Resultish.noConfusion h
  · intro t e
    exact ⟨rfl, rfl, rfl, rfl, rfl, rfl⟩
